import Mathlib

/-!
Verification development for the EasyDocs WhatsApp file-converter bot.

The definitions below are shallow embeddings of the JavaScript sources:
* `src/services/pdfService.js` — `parsePageRange`, `splitPDF`, `extractPages`, `removePages`
  (the pure page-selection cores; file reading/writing is abstracted away, the total page
  count of the input document is passed explicitly);
* `src/services/pdfEditService.js` — the inline page-range parser of `rotatePDF`;
* `src/utils/helpers.js` — `detectFileType`, the session manager
  (`getSession`, `cleanupExpiredSessions`), `cleanupOldFiles`, and the message handler
  (`checkOperationRequirements`, `handleStepOperation`, `processOperation`);
* `src/services/pdfSecurityService.js` — `comparePDFs` (page counts supplied by the caller,
  standing for `pdf-lib`'s `getPageCount`).

JavaScript strings are modelled as `List Char`; machine numbers as `Nat` (all the numbers
involved are non-negative integers, and the JS `NaN` outcome of `parseInt` is modelled by
`Option`).  JS truthiness of the relevant values (`0`, `NaN`, `""`, `null` falsy) is
modelled explicitly at each use site.
-/

namespace EasyDocs

/-- White-space test backing the model of `String.prototype.trim` (ASCII subset). -/
def isSpaceJS (c : Char) : Bool :=
  c == ' ' || c == '\t' || c == '\n' || c == '\r'

/-- Model of `String.prototype.trim`: drop white space from both ends. -/
def trimJS (cs : List Char) : List Char :=
  ((cs.dropWhile isSpaceJS).reverse.dropWhile isSpaceJS).reverse

/-- Model of `String.prototype.split` with a one-character separator: `"".split` gives
`[""]`, separators at the ends give empty fields, exactly as in JavaScript. -/
def splitOnChar (sep : Char) : List Char → List (List Char)
  | [] => [[]]
  | c :: cs =>
    match splitOnChar sep cs with
    | [] => [[]]
    | t :: ts => if c = sep then [] :: t :: ts else (c :: t) :: ts

/-- Decimal value of a digit run. -/
def digitsToNat (ds : List Char) : Nat :=
  ds.foldl (fun a c => a * 10 + (c.toNat - 48)) 0

/-- Model of JavaScript `parseInt` on an already-trimmed token: an optional leading `+`
followed by the longest run of decimal digits; `none` models `NaN`.  (The `0x` hex form
of `parseInt` is not modelled; no caller in this repository feeds it hex input, and both
embedded parsers use this same model, so the comparison between them is unaffected.) -/
def parseIntJS (cs : List Char) : Option Nat :=
  let cs' := match cs with
    | '+' :: rest => rest
    | other => other
  let ds := cs'.takeWhile (fun c => c.isDigit)
  if ds = [] then none else some (digitsToNat ds)

/-- Model of the JS idiom `parseInt(x) || d`: both `NaN` and `0` are falsy and fall back
to the default `d`. -/
def jsOrD (d : Nat) : Option Nat → Nat
  | none => d
  | some 0 => d
  | some n => n

/-- Pages contributed by one comma-separated token of `parsePageRange`
(`src/services/pdfService.js` lines 171-189), before the duplicate check that is applied
as the pages are pushed.  A token containing `-` is a range: its start defaults to 1 when
missing/non-numeric/zero, its end defaults to `totalPages` when missing/non-numeric/zero,
and the loop runs while `i <= endNum && i <= totalPages`, keeping `i >= 1`.  A bare token
is kept when `1 <= n <= totalPages`. -/
def sharedTok (totalPages : Nat) (part : List Char) : List Nat :=
  let trimmed := trimJS part
  if trimmed.contains '-' then
    let pieces := (splitOnChar '-' trimmed).map trimJS
    let startPart := (pieces.get? 0).getD []
    let endPart := (pieces.get? 1).getD []
    let startNum := jsOrD 1 (parseIntJS startPart)
    let endNum := if endPart = [] then totalPages else jsOrD totalPages (parseIntJS endPart)
    (List.range' startNum (min endNum totalPages + 1 - startNum)).filter (fun i => 1 ≤ i)
  else
    match parseIntJS trimmed with
    | some n => if 1 ≤ n ∧ n ≤ totalPages then [n] else []
    | none => []

/-- The `!pages.includes(i)` guarded push of `parsePageRange`. -/
def pushPage (pages : List Nat) (i : Nat) : List Nat :=
  if pages.contains i then pages else pages ++ [i]

/-- One token step of `parsePageRange`: push every candidate page of the token, skipping
pages already collected. -/
def sharedStep (totalPages : Nat) (pages : List Nat) (part : List Char) : List Nat :=
  (sharedTok totalPages part).foldl pushPage pages

/-- Translation of `parsePageRange` (`src/services/pdfService.js` lines 167-193): split
the selector on commas, accumulate the per-token pages with deduplication, and sort the
result ascending (the JS `sort((a, b) => a - b)`). -/
def parsePageRange (pageRange : String) (totalPages : Nat) : List Nat :=
  let parts := splitOnChar ',' pageRange.toList
  List.insertionSort (· ≤ ·) (parts.foldl (sharedStep totalPages) [])

/-- Page-selection core of `splitPDF` (`src/services/pdfService.js` lines 57-95): parse
the range against the document's page count, throw `Invalid page range` when the parsed
list is empty, otherwise copy the selected pages (converted to 0-based indices). -/
def splitPDF (pageRange : String) (totalPages : Nat) : Except String (List Nat) :=
  let pages := parsePageRange pageRange totalPages
  if pages.length = 0 then Except.error "Invalid page range"
  else Except.ok (pages.map (fun p => p - 1))

/-- Translation of `extractPages` (`src/services/pdfService.js` lines 156-159): it just reuses `splitPDF`. -/
def extractPages (pageRange : String) (totalPages : Nat) : Except String (List Nat) :=
  splitPDF pageRange totalPages

/-- Page-selection core of `removePages` (`src/services/pdfService.js` lines 103-148):
parse the pages to remove, keep (0-based) every page of `1..totalPages` not in the parsed
list, and throw `Cannot remove all pages` when nothing is kept. -/
def removePages (pageRange : String) (totalPages : Nat) : Except String (List Nat) :=
  let pagesToRemove := parsePageRange pageRange totalPages
  let pagesToKeep :=
    ((List.range' 1 totalPages).filter (fun i => !(pagesToRemove.contains i))).map (fun i => i - 1)
  if pagesToKeep.length = 0 then Except.error "Cannot remove all pages"
  else Except.ok pagesToKeep

/-- Pages (0-based) contributed by one token of the inline parser of `rotatePDF`
(`src/services/pdfEditService.js` lines 41-57).  A range token whose start piece does not
parse contributes nothing (the JS loop starts at `NaN`); otherwise the loop runs from
`start - 1` while `i < (end || totalPages)`, keeping `0 <= i < totalPages`.  A bare token
`n` contributes `n - 1` when `0 <= n - 1 < totalPages`. -/
def rotateTok (totalPages : Nat) (part : List Char) : List Nat :=
  let trimmed := trimJS part
  if trimmed.contains '-' then
    let pieces := (splitOnChar '-' trimmed).map (fun q => parseIntJS (trimJS q))
    match (pieces.get? 0).getD none with
    | none => []
    | some st =>
      let e := jsOrD totalPages ((pieces.get? 1).getD none)
      List.range' (st - 1) (min e totalPages - (st - 1))
  else
    match parseIntJS trimmed with
    | some n => if 1 ≤ n ∧ n ≤ totalPages then [n - 1] else []
    | none => []

/-- One token step of the `rotatePDF` parser: pages are pushed without deduplication. -/
def rotateStep (totalPages : Nat) (pages : List Nat) (part : List Char) : List Nat :=
  pages ++ rotateTok totalPages part

/-- The page set computed inline by `rotatePDF` (`src/services/pdfEditService.js` lines
36-58): the literal selector `all` short-circuits to every (0-based) page; any other
selector is split on commas and parsed token by token. -/
def pagesToRotate (pageRange : String) (totalPages : Nat) : List Nat :=
  if pageRange = "all" then List.range totalPages
  else (splitOnChar ',' pageRange.toList).foldl (rotateStep totalPages) []

/-- Model of `String.prototype.toLowerCase` (ASCII). -/
def toLowerJS (s : String) : String :=
  String.mk (s.toList.map Char.toLower)

/-- Model of `String.prototype.startsWith`. -/
def jsStartsWith (s pre : String) : Bool :=
  pre.toList.isPrefixOf s.toList

/-- Model of `String.prototype.endsWith`. -/
def jsEndsWith (s suf : String) : Bool :=
  suf.toList.isSuffixOf s.toList

/-- Contiguous-substring test on character lists. -/
def listInfix (sub : List Char) : List Char → Bool
  | [] => sub.isEmpty
  | c :: cs => sub.isPrefixOf (c :: cs) || listInfix sub cs

/-- Model of `String.prototype.includes`. -/
def jsIncludes (s sub : String) : Bool :=
  listInfix sub.toList s.toList

/-- Suffix of a character list strictly after its last `.`, or `none` if it has no dot. -/
def afterLastDot : List Char → Option (List Char)
  | [] => none
  | c :: rest =>
    match afterLastDot rest with
    | some s => some s
    | none => if c = '.' then some rest else none

/-- Portion of a path after its last `/` (model of Node's basename step in `extname`). -/
def basenameJS (cs : List Char) : List Char :=
  cs.foldl (fun acc c => if c = '/' then [] else acc ++ [c]) []

/-- Model of Node `path.extname`: the last dot-suffix of the basename, where a dot that is
the first character of the basename does not count and `..` has no extension. -/
def extnameJS (cs : List Char) : List Char :=
  match basenameJS cs with
  | [] => []
  | b0 :: rest =>
    if b0 :: rest = ['.', '.'] then []
    else
      match afterLastDot rest with
      | some s => '.' :: s
      | none => []

/-- Translation of `getFileExtension` (`src/utils/fileManager.js` lines 157-159):
`path.extname(filePath).toLowerCase()`. -/
def getFileExtension (filePath : String) : String :=
  String.mk ((extnameJS filePath.toList).map Char.toLower)

/-- The extensions recognized by `detectFileType` without consulting the MIME type. -/
def recognizedExtensions : List String :=
  [".pdf", ".jpg", ".jpeg", ".png", ".gif", ".bmp", ".webp",
   ".doc", ".docx", ".ppt", ".pptx", ".xls", ".xlsx", ".html", ".htm"]

/-- The extension branch of `detectFileType` (`src/utils/helpers.js` lines 12-26): the
six early `return`s keyed on the extension, modelled as an `Option` (`none` means the
function falls through to the MIME branch). -/
def extTag (ext : String) : Option String :=
  if ext = ".pdf" then some "pdf"
  else if ext ∈ [".jpg", ".jpeg", ".png", ".gif", ".bmp", ".webp"] then some "image"
  else if ext ∈ [".doc", ".docx"] then some "word"
  else if ext ∈ [".ppt", ".pptx"] then some "powerpoint"
  else if ext ∈ [".xls", ".xlsx"] then some "excel"
  else if ext ∈ [".html", ".htm"] then some "html"
  else none

/-- The MIME branch of `detectFileType` (`src/utils/helpers.js` lines 29-38); the JS
truthiness test `if (mimeType)` makes the empty string fall through to `unknown`. -/
def mimeTag (m : String) : String :=
  if m = "" then "unknown"
  else if jsIncludes m "pdf" then "pdf"
  else if jsIncludes m "image" then "image"
  else if jsIncludes m "word" || jsIncludes m "document" then "word"
  else if jsIncludes m "presentation" || jsIncludes m "powerpoint" then "powerpoint"
  else if jsIncludes m "spreadsheet" || jsIncludes m "excel" then "excel"
  else if jsIncludes m "html" then "html"
  else "unknown"

/-- Translation of `detectFileType` (`src/utils/helpers.js` lines 9-39): try the
extension first, and consult the MIME type (an `Option String`; `none` models the `null`
default) only when no extension matched. -/
def detectFileType (filename : String) (mimeType : Option String) : String :=
  match extTag (getFileExtension filename) with
  | some t => t
  | none =>
    match mimeType with
    | some m => mimeTag m
    | none => "unknown"

/-- The seven tags `detectFileType` can produce. -/
def fileTypeTags : List String :=
  ["pdf", "image", "word", "powerpoint", "excel", "html", "unknown"]

/-- The per-file record pushed by `addFileToSession` (`src/handlers/messageHandler.js`,
`handleFileUpload`). -/
structure FileInfo where
  path : String
  type : String
  mimetype : String
  size : Nat
  filename : String
deriving DecidableEq, Repr

/-- The per-user session record of `src/utils/sessionManager.js`.  `metadata` is the JS
object modelled as an association list read through `List.lookup`. -/
structure Session where
  userId : String
  uploadedFiles : List FileInfo
  currentStep : String
  selectedOperation : Option String
  metadata : List (String × String)
  lastActivity : Nat
deriving DecidableEq, Repr

/-- First-match association-list lookup (model of JS `Map.get` / object property read). -/
def lookupAssoc {β : Type} : List (String × β) → String → Option β
  | [], _ => none
  | (a, b) :: t, k => if k = a then some b else lookupAssoc t k

/-- Read a metadata key; a missing key reads as the falsy `""` (JS `undefined`). -/
def metaGet (md : List (String × String)) (k : String) : String :=
  (lookupAssoc md k).getD ""

/-- JS truthiness of a metadata value: present and non-empty. -/
def metaTruthy (md : List (String × String)) (k : String) : Bool :=
  metaGet md k != ""

/-- Assign a metadata key (JS `session.metadata[k] = v`); the new binding shadows any
older one for `List.lookup`. -/
def metaSet (md : List (String × String)) (k v : String) : List (String × String) :=
  (k, v) :: md

/-- Session timeout of `src/utils/sessionManager.js` line 212: 30 minutes in ms. -/
def SESSION_TIMEOUT : Nat := 30 * 60 * 1000

/-- The defaults `getSession` creates for an unknown user
(`src/utils/sessionManager.js` lines 220-228). -/
def freshSession (userId : String) (now : Nat) : Session :=
  { userId := userId, uploadedFiles := [], currentStep := "idle",
    selectedOperation := none, metadata := [], lastActivity := now }

/-- Translation of `getSession` (`src/utils/sessionManager.js` lines 219-234) over an
explicit store: create the session with defaults if absent, and refresh `lastActivity`.
Returns the session together with the updated store. -/
def getSession (store : List (String × Session)) (userId : String) (now : Nat) :
    Session × List (String × Session) :=
  match lookupAssoc store userId with
  | some sess =>
    let s1 := { sess with lastActivity := now }
    (s1, store.map (fun kv => if kv.1 = userId then (kv.1, s1) else kv))
  | none =>
    let s1 := freshSession userId now
    (s1, store ++ [(userId, s1)])

/-- Translation of `cleanupExpiredSessions` (`src/utils/sessionManager.js` lines
289-296): delete every session with `now - lastActivity > SESSION_TIMEOUT`, i.e. keep
exactly those with `now - lastActivity <= SESSION_TIMEOUT`. -/
def cleanupExpiredSessions (now : Nat) (store : List (String × Session)) :
    List (String × Session) :=
  store.filter (fun kv => decide (now - kv.2.lastActivity ≤ SESSION_TIMEOUT))

/-- Retention threshold of `cleanupOldFiles` (`src/utils/fileManager.js` line 182):
1 hour in ms. -/
def MAX_FILE_AGE : Nat := 60 * 60 * 1000

/-- Translation of `cleanupOldFiles` (`src/utils/fileManager.js` lines 178-198) over an
explicit staging directory listing of (name, mtimeMs) pairs: delete every file with
`now - mtimeMs > maxAge`, i.e. keep exactly those with `now - mtimeMs <= maxAge`. -/
def cleanupOldFiles (now : Nat) (dir : List (String × Nat)) : List (String × Nat) :=
  dir.filter (fun f => decide (now - f.2 ≤ MAX_FILE_AGE))

/-- Translation of `validateFileType` (`src/handlers/messageHandler.js` lines 666-673). -/
def validateFileType (files : List FileInfo) (requiredType opName : String) :
    Except String Unit :=
  match files with
  | [] => Except.error ("Please send a " ++ requiredType ++ " file.")
  | f :: _ =>
    if f.type = requiredType then Except.ok ()
    else Except.error ("Invalid file type for " ++ opName)

/-- Outcome of the `switch (operation)` dispatch inside `processOperation`
(`src/handlers/messageHandler.js` lines 690-911): either a branch returned early after
its own session updates, or it produced an output path, or it threw. -/
inductive DispatchR where
  | early (s : Session)
  | out (path : String)
  | thrown (msg : String)
deriving DecidableEq, Repr

/-- Sequence a validation before the rest of a dispatch branch. -/
def afterValidate (v : Except String Unit) (rest : DispatchR) : DispatchR :=
  match v with
  | Except.error e => DispatchR.thrown e
  | Except.ok _ => rest

/-- Turn an external service call result into a dispatch outcome (a service throw
propagates to the surrounding catch). -/
def toOut (r : Except String String) : DispatchR :=
  match r with
  | Except.ok p => DispatchR.out p
  | Except.error e => DispatchR.thrown e

/-- Model of `updateSession(userId, { currentStep: step })`: also refreshes
`lastActivity`. -/
def setStep (s : Session) (step : String) (now : Nat) : Session :=
  { s with currentStep := step, lastActivity := now }

/-- Model of `updateSession(userId, { currentStep: 'idle', selectedOperation: null })`. -/
def resetIdle (s : Session) (now : Nat) : Session :=
  { s with currentStep := "idle", selectedOperation := none, lastActivity := now }

/-- The `switch (operation)` of `processOperation` (`src/handlers/messageHandler.js`
lines 690-911).  External document-transforming services are abstracted into the oracle
`svc : operation id -> Except error outputPath`; every session update performed by a
branch before returning early is reproduced. -/
def dispatch (s : Session) (svc : String → Except String String) (now : Nat) : DispatchR :=
  let files := s.uploadedFiles
  let md := s.metadata
  match s.selectedOperation with
  | none => DispatchR.thrown "Unknown operation"
  | some op =>
    if op = "merge_pdf" then
      if files.length < 2 then DispatchR.thrown "Please send at least 2 PDF files to merge."
      else if ((files.map (fun f => f.path)).filter (fun p => jsEndsWith p ".pdf")).length < 2 then
        DispatchR.thrown "Please send PDF files only."
      else toOut (svc "merge_pdf")
    else if op = "split_pdf" then
      afterValidate (validateFileType files "pdf" "Split PDF")
        (if !(metaTruthy md "pageRange") then DispatchR.early (setStep s "waiting_for_page_range" now)
         else toOut (svc "split_pdf"))
    else if op = "remove_pages" then
      afterValidate (validateFileType files "pdf" "Remove Pages")
        (if !(metaTruthy md "pageRange") then DispatchR.early (setStep s "waiting_for_page_range" now)
         else toOut (svc "remove_pages"))
    else if op = "extract_pages" then
      afterValidate (validateFileType files "pdf" "Extract Pages")
        (if !(metaTruthy md "pageRange") then DispatchR.early (setStep s "waiting_for_page_range" now)
         else toOut (svc "extract_pages"))
    else if op = "compress_pdf" then
      afterValidate (validateFileType files "pdf" "Compress PDF") (toOut (svc "compress_pdf"))
    else if op = "repair_pdf" then
      afterValidate (validateFileType files "pdf" "Repair PDF") (toOut (svc "repair_pdf"))
    else if op = "ocr_pdf" then
      afterValidate (validateFileType files "pdf" "OCR PDF") (toOut (svc "ocr_pdf"))
    else if op = "image_to_pdf" then
      match files with
      | [] => DispatchR.thrown "Please send an image file."
      | f :: _ =>
        if f.type ≠ "image" then DispatchR.thrown "Please send an image file (JPG, PNG, etc.)."
        else toOut (svc "image_to_pdf")
    else if op = "word_to_pdf" then
      if files.length = 0 then DispatchR.thrown "Please send a Word document."
      else toOut (svc "word_to_pdf")
    else if op = "powerpoint_to_pdf" then
      if files.length = 0 then DispatchR.thrown "Please send a PowerPoint file."
      else toOut (svc "powerpoint_to_pdf")
    else if op = "excel_to_pdf" then
      if files.length = 0 then DispatchR.thrown "Please send an Excel file."
      else toOut (svc "excel_to_pdf")
    else if op = "html_to_pdf" then
      if files.length = 0 then DispatchR.thrown "Please send an HTML file."
      else toOut (svc "html_to_pdf")
    else if op = "pdf_to_image" then
      match files with
      | [] => DispatchR.thrown "Please send a PDF file."
      | f :: _ =>
        if f.type ≠ "pdf" then DispatchR.thrown "Please send a PDF file."
        else if !(metaTruthy md "pageNumber") && metaGet md "pageNumber" ≠ "0" then
          DispatchR.early (setStep s "waiting_for_page_number" now)
        else toOut (svc "pdf_to_image")
    else if op = "pdf_to_word" then
      afterValidate (validateFileType files "pdf" "PDF to Word") (toOut (svc "pdf_to_word"))
    else if op = "pdf_to_powerpoint" then
      afterValidate (validateFileType files "pdf" "PDF to PowerPoint") (toOut (svc "pdf_to_powerpoint"))
    else if op = "pdf_to_excel" then
      afterValidate (validateFileType files "pdf" "PDF to Excel") (toOut (svc "pdf_to_excel"))
    else if op = "pdf_to_pdfa" then
      afterValidate (validateFileType files "pdf" "PDF to PDF/A") (toOut (svc "pdf_to_pdfa"))
    else if op = "rotate_pdf" then
      afterValidate (validateFileType files "pdf" "Rotate PDF")
        (if !(metaTruthy md "angle") then DispatchR.early (setStep s "waiting_for_angle" now)
         else if !(metaTruthy md "pageRange") then DispatchR.early (setStep s "waiting_for_page_range" now)
         else toOut (svc "rotate_pdf"))
    else if op = "add_page_numbers" then
      afterValidate (validateFileType files "pdf" "Add Page Numbers")
        (if !(metaTruthy md "position") then DispatchR.early (setStep s "waiting_for_position" now)
         else toOut (svc "add_page_numbers"))
    else if op = "add_watermark" then
      afterValidate (validateFileType files "pdf" "Add Watermark")
        (if !(metaTruthy md "watermarkText") && files.length < 2 then
           DispatchR.early (setStep s "waiting_for_watermark" now)
         else toOut (svc "add_watermark"))
    else if op = "crop_pdf" then
      afterValidate (validateFileType files "pdf" "Crop PDF")
        (DispatchR.early (resetIdle s now))
    else if op = "basic_edit_pdf" then
      afterValidate (validateFileType files "pdf" "Basic Edit PDF") (toOut (svc "basic_edit_pdf"))
    else if op = "unlock_pdf" then
      afterValidate (validateFileType files "pdf" "Unlock PDF") (toOut (svc "unlock_pdf"))
    else if op = "protect_pdf" then
      afterValidate (validateFileType files "pdf" "Protect PDF")
        (if !(metaTruthy md "password") then DispatchR.early (setStep s "waiting_for_password" now)
         else toOut (svc "protect_pdf"))
    else if op = "sign_pdf" then
      afterValidate (validateFileType files "pdf" "Sign PDF")
        (if files.length < 2 then DispatchR.early (setStep s "waiting_for_signature" now)
         else toOut (svc "sign_pdf"))
    else if op = "redact_pdf" then
      afterValidate (validateFileType files "pdf" "Redact PDF")
        (DispatchR.early (resetIdle s now))
    else if op = "compare_pdf" then
      match files with
      | f1 :: f2 :: _ =>
        if f1.type ≠ "pdf" ∨ f2.type ≠ "pdf" then
          DispatchR.thrown "Both files must be PDFs for comparison."
        else
          match svc "compare_pdf" with
          | Except.ok _ => DispatchR.early { resetIdle s now with uploadedFiles := [] }
          | Except.error e => DispatchR.thrown e
      | _ => DispatchR.early s
    else DispatchR.thrown "Unknown operation"

/-- Translation of `processOperation` (`src/handlers/messageHandler.js` lines 678-938).
`getSession` at entry refreshes `lastActivity`.  A dispatch branch that returned early
stands; an output path is delivered through the `deliver` oracle (`verifyFile` plus
`sendFile`, whose failure throws `Failed to create output file` or a send error); success
clears the uploaded files and resets step, operation and metadata; any throw is caught by
the final `catch`, which resets `currentStep`/`selectedOperation` only. -/
def processOperation (s : Session) (svc : String → Except String String)
    (deliver : String → Except String Unit) (now : Nat) : Session :=
  let s0 := { s with lastActivity := now }
  match dispatch s0 svc now with
  | DispatchR.early s1 => s1
  | DispatchR.thrown _ => resetIdle s0 now
  | DispatchR.out p =>
    match deliver p with
    | Except.ok _ =>
      { s0 with uploadedFiles := [], currentStep := "idle",
                selectedOperation := none, metadata := [] }
    | Except.error _ => resetIdle s0 now

/-- Translation of `checkOperationRequirements` (`src/handlers/messageHandler.js` lines
583-611).  For `merge_pdf` and `compare_pdf` it only replies and returns; for any other
selected operation it invokes `processOperation` as soon as at least one file is present.
The boolean records whether `processOperation` was invoked. -/
def checkOperationRequirements (s : Session) (svc : String → Except String String)
    (deliver : String → Except String Unit) (now : Nat) : Session × Bool :=
  if s.selectedOperation = some "merge_pdf" then (s, false)
  else if s.selectedOperation = some "compare_pdf" then (s, false)
  else if s.uploadedFiles.length > 0 then (processOperation s svc deliver now, true)
  else (s, false)

/-- Translation of the session-visible part of `handleFileUpload`
(`src/handlers/messageHandler.js` lines 439-491): append the file to the session, then,
if an operation is selected, run `checkOperationRequirements`.  The boolean records
whether `processOperation` was invoked. -/
def handleFileUpload (s : Session) (f : FileInfo) (svc : String → Except String String)
    (deliver : String → Except String Unit) (now : Nat) : Session × Bool :=
  let s1 := { s with uploadedFiles := s.uploadedFiles ++ [f], lastActivity := now }
  if s1.selectedOperation.isSome then checkOperationRequirements s1 svc deliver now
  else (s1, false)

/-- Translation of `handleStepOperation` (`src/handlers/messageHandler.js` lines
616-661); `body` is the trimmed message text.  The boolean records whether
`processOperation` was invoked. -/
def handleStepOperation (s : Session) (body : String)
    (svc : String → Except String String) (deliver : String → Except String Unit)
    (now : Nat) : Session × Bool :=
  if s.selectedOperation = some "merge_pdf" ∧ body = "done" then
    if s.uploadedFiles.length < 2 then (s, false)
    else (processOperation s svc deliver now, true)
  else if s.currentStep = "waiting_for_page_range" then
    let s1 := { s with metadata := metaSet s.metadata "pageRange" body,
                       currentStep := "processing", lastActivity := now }
    (processOperation s1 svc deliver now, true)
  else if s.currentStep = "waiting_for_page_number" then
    let s1 := { s with metadata := metaSet s.metadata "pageNumber" (toLowerJS body),
                       currentStep := "processing", lastActivity := now }
    (processOperation s1 svc deliver now, true)
  else if jsStartsWith s.currentStep "waiting_for_" then
    let inputType := String.mk (s.currentStep.toList.drop 12)
    let s1 := { s with metadata := metaSet s.metadata inputType body,
                       currentStep := "processing", lastActivity := now }
    (processOperation s1 svc deliver now, true)
  else if s.uploadedFiles.length > 0 ∧ s.selectedOperation.isSome then
    (processOperation s svc deliver now, true)
  else (s, false)

/-- The record built by `comparePDFs` (`src/services/pdfSecurityService.js` lines
281-328). -/
structure PDFComparison where
  pageCountMatch : Bool
  pageCount1 : Nat
  pageCount2 : Nat
  fileSize1 : Nat
  fileSize2 : Nat
  fileSizeMatch : Bool
  identical : Bool
deriving DecidableEq, Repr

/-- Model of the JS `pdfBytes1.every((byte, index) => byte === pdfBytes2[index])`:
positional comparison over the first list; a missing index in the second list
(`undefined`) compares unequal. -/
def jsEveryEq : List Nat → List Nat → Bool
  | [], _ => true
  | _ :: _, [] => false
  | a :: as, b :: bs => a == b && jsEveryEq as bs

/-- Translation of `comparePDFs` (`src/services/pdfSecurityService.js` lines 281-328).
The two byte buffers are explicit; the page counts that `pdf-lib` reads from them are
passed by the caller.  `identical` is computed only when both the page counts and the
byte lengths match. -/
def comparePDFs (pdfBytes1 pdfBytes2 : List Nat) (pageCount1 pageCount2 : Nat) :
    PDFComparison :=
  let pageCountMatch := pageCount1 == pageCount2
  let fileSizeMatch := pdfBytes1.length == pdfBytes2.length
  let identical :=
    if pageCountMatch && fileSizeMatch then
      pdfBytes1.length == pdfBytes2.length && jsEveryEq pdfBytes1 pdfBytes2
    else false
  { pageCountMatch := pageCountMatch, pageCount1 := pageCount1, pageCount2 := pageCount2,
    fileSize1 := pdfBytes1.length, fileSize2 := pdfBytes2.length,
    fileSizeMatch := fileSizeMatch, identical := identical }

example : parsePageRange "1-3,5" 10 = [1, 2, 3, 5] := by decide
example : parsePageRange "5-" 10 = [5, 6, 7, 8, 9, 10] := by decide
example : parsePageRange "-3" 10 = [1, 2, 3] := by decide
example : parsePageRange "1-3,2" 10 = [1, 2, 3] := by decide
example : parsePageRange "99" 10 = [] := by decide
example : pagesToRotate "-3" 10 = [] := by decide
example : pagesToRotate "5-" 10 = [4, 5, 6, 7, 8, 9] := by decide
example : pagesToRotate "all" 3 = [0, 1, 2] := by decide

/-- A pdf file record used for concrete instantiations. -/
def exFile1 : FileInfo :=
  { path := "/tmp/a.pdf", type := "pdf", mimetype := "application/pdf",
    size := 100, filename := "a.pdf" }

/-- A second pdf file record used for concrete instantiations. -/
def exFile2 : FileInfo :=
  { path := "/tmp/b.pdf", type := "pdf", mimetype := "application/pdf",
    size := 200, filename := "b.pdf" }

/-- A session that selected `compare_pdf` and already holds one pdf file. -/
def compareSession1 : Session :=
  { userId := "user1", uploadedFiles := [exFile1], currentStep := "waiting_for_file",
    selectedOperation := some "compare_pdf", metadata := [], lastActivity := 0 }

/-- C4: the spec's concrete test vector for the range parser — `1-3,5`, the trailing
dash `5-`, the omitted start `-3`, deduplication on `1-3,2`, and `splitPDF` failing with
the invalid-page-range error on the out-of-bounds selector `99` over 10 pages. -/
theorem C4_parsePageRange_values :
    parsePageRange "1-3,5" 10 = [1, 2, 3, 5] ∧
    parsePageRange "5-" 10 = [5, 6, 7, 8, 9, 10] ∧
    parsePageRange "-3" 10 = [1, 2, 3] ∧
    parsePageRange "1-3,2" 10 = [1, 2, 3] ∧
    splitPDF "99" 10 = Except.error "Invalid page range" :=
  ⟨by decide, by decide, by decide, by decide, rfl⟩

/-- C10: in every record returned by `comparePDFs`, `identical = true` only if both
`pageCountMatch` and `fileSizeMatch` hold, `fileSizeMatch` holds exactly when the two
byte buffers have equal length, and `pageCountMatch` exactly when the page counts are
equal. -/
theorem C10_comparePDFs_invariant (b1 b2 : List Nat) (pc1 pc2 : Nat) :
    ((comparePDFs b1 b2 pc1 pc2).identical = true →
      (comparePDFs b1 b2 pc1 pc2).pageCountMatch = true ∧
      (comparePDFs b1 b2 pc1 pc2).fileSizeMatch = true) ∧
    ((comparePDFs b1 b2 pc1 pc2).fileSizeMatch = true ↔ b1.length = b2.length) ∧
    ((comparePDFs b1 b2 pc1 pc2).pageCountMatch = true ↔ pc1 = pc2) := by
  refine ⟨?_, by simp [comparePDFs], by simp [comparePDFs]⟩
  intro h
  by_cases hpc : pc1 = pc2 <;> by_cases hl : b1.length = b2.length <;>
    simp [comparePDFs, hpc, hl] at h ⊢

/-- Witness for C10 at two equal one-byte buffers. -/
theorem C10_comparePDFs_invariant_witness :
    (comparePDFs [7] [7] 1 1).pageCountMatch = true ∧
    (comparePDFs [7] [7] 1 1).fileSizeMatch = true :=
  (C10_comparePDFs_invariant [7] [7] 1 1).1 (by decide)

/-- C8: one run of the artifact sweep deletes a listed file exactly when its mtime is
more than `MAX_FILE_AGE` (1 hour) before `now`; newer files are retained. -/
theorem C8_cleanupOldFiles_iff (now : Nat) (dir : List (String × Nat)) (name : String)
    (mtime : Nat) (hmem : (name, mtime) ∈ dir) :
    ((name, mtime) ∉ cleanupOldFiles now dir ↔ mtime + MAX_FILE_AGE < now) := by
  simp only [cleanupOldFiles, List.mem_filter, hmem, true_and, decide_eq_true_eq]
  omega

/-- Witness for C8: a file dated 0 is swept at `now` slightly past the threshold. -/
theorem C8_cleanupOldFiles_iff_witness :
    (("stale.pdf", 0) ∉ cleanupOldFiles 3600001 [("stale.pdf", 0)] ↔
      0 + MAX_FILE_AGE < 3600001) :=
  C8_cleanupOldFiles_iff 3600001 [("stale.pdf", 0)] "stale.pdf" 0 (by decide)

/-- Every tag produced by the MIME branch is one of the seven. -/
theorem mimeTag_mem_fileTypeTags (m : String) : mimeTag m ∈ fileTypeTags := by
  unfold mimeTag
  split_ifs <;> simp [fileTypeTags]

/-- Every tag produced by the extension branch is one of the seven. -/
theorem extTag_mem_fileTypeTags (e t : String) (h : extTag e = some t) :
    t ∈ fileTypeTags := by
  unfold extTag at h
  split_ifs at h <;> simp_all [fileTypeTags]

/-- The extension branch fires on every recognized extension. -/
theorem extTag_isSome_of_recognized (e : String) (h : e ∈ recognizedExtensions) :
    (extTag e).isSome := by
  simp only [recognizedExtensions, List.mem_cons, List.not_mem_nil, or_false] at h
  rcases h with h | h | h | h | h | h | h | h | h | h | h | h | h | h | h <;>
    simp [extTag, h]

/-- C9: when the filename's extension is recognized, `detectFileType` ignores the MIME
type entirely, and on all inputs its result is one of the seven tags. -/
theorem C9_detectFileType_mime_independent (f : String) (m1 m2 : Option String) :
    (getFileExtension f ∈ recognizedExtensions →
      detectFileType f m1 = detectFileType f m2) ∧
    detectFileType f m1 ∈ fileTypeTags := by
  constructor
  · intro h
    have hs := extTag_isSome_of_recognized _ h
    unfold detectFileType
    rcases he : extTag (getFileExtension f) with _ | t
    · rw [he] at hs
      simp at hs
    · rfl
  · unfold detectFileType
    rcases he : extTag (getFileExtension f) with _ | t
    · rcases m1 with _ | m
      · simp [fileTypeTags]
      · exact mimeTag_mem_fileTypeTags m
    · exact extTag_mem_fileTypeTags _ _ he

/-- Witness for C9 at a `.pdf` filename and two different MIME arguments. -/
theorem C9_detectFileType_mime_independent_witness :
    detectFileType "doc.pdf" (some "text/html") = detectFileType "doc.pdf" none ∧
    detectFileType "doc.pdf" (some "text/html") ∈ fileTypeTags :=
  ⟨(C9_detectFileType_mime_independent "doc.pdf" (some "text/html") none).1 (by decide),
   (C9_detectFileType_mime_independent "doc.pdf" (some "text/html") none).2⟩

/-- C6: whenever the dispatched operation of `processOperation` throws, the catch resets
`currentStep` to idle and `selectedOperation` to null while leaving `uploadedFiles` and
`metadata` (and the user id) exactly as they were. -/
theorem C6_processOperation_error_path (s : Session) (svc : String → Except String String)
    (deliver : String → Except String Unit) (now : Nat) (msg : String)
    (h : dispatch { s with lastActivity := now } svc now = DispatchR.thrown msg) :
    (processOperation s svc deliver now).currentStep = "idle" ∧
    (processOperation s svc deliver now).selectedOperation = none ∧
    (processOperation s svc deliver now).uploadedFiles = s.uploadedFiles ∧
    (processOperation s svc deliver now).metadata = s.metadata ∧
    (processOperation s svc deliver now).userId = s.userId := by
  simp only [processOperation, h, resetIdle]
  simp

/-- A session stuck in `processing` for `split_pdf` with no uploaded file, so that the
dispatch throws through `validateFileType`. -/
def noFileSplitSession : Session :=
  { userId := "u", uploadedFiles := [], currentStep := "processing",
    selectedOperation := some "split_pdf", metadata := [("k", "v")], lastActivity := 0 }

/-- Witness for C6: `split_pdf` selected with no file uploaded makes `validateFileType`
throw, and the session keeps its (empty) files and its metadata. -/
theorem C6_processOperation_error_path_witness :
    (processOperation noFileSplitSession
        (fun _ => Except.ok "out.pdf") (fun _ => Except.ok ()) 5).currentStep = "idle" ∧
    (processOperation noFileSplitSession
        (fun _ => Except.ok "out.pdf") (fun _ => Except.ok ()) 5).selectedOperation = none ∧
    (processOperation noFileSplitSession
        (fun _ => Except.ok "out.pdf") (fun _ => Except.ok ()) 5).uploadedFiles =
      noFileSplitSession.uploadedFiles ∧
    (processOperation noFileSplitSession
        (fun _ => Except.ok "out.pdf") (fun _ => Except.ok ()) 5).metadata =
      noFileSplitSession.metadata ∧
    (processOperation noFileSplitSession
        (fun _ => Except.ok "out.pdf") (fun _ => Except.ok ()) 5).userId =
      noFileSplitSession.userId :=
  C6_processOperation_error_path noFileSplitSession
    (fun _ => Except.ok "out.pdf") (fun _ => Except.ok ()) 5 "Please send a pdf file." rfl

/-- C1 counterexample: with `compare_pdf` selected and one pdf file stored, receiving the
second pdf file does NOT advance the session to `processing` and does not run the
comparison — `checkOperationRequirements` returns without invoking `processOperation`,
leaving `currentStep` at `waiting_for_file`. -/
theorem C1_compare_no_auto_advance_cex :
    (handleFileUpload compareSession1 exFile2
        (fun _ => Except.ok "out.pdf") (fun _ => Except.ok ()) 5).2 = false ∧
    (handleFileUpload compareSession1 exFile2
        (fun _ => Except.ok "out.pdf") (fun _ => Except.ok ()) 5).1.currentStep =
      "waiting_for_file" ∧
    (handleFileUpload compareSession1 exFile2
        (fun _ => Except.ok "out.pdf") (fun _ => Except.ok ()) 5).1.currentStep ≠
      "processing" := by
  refine ⟨rfl, rfl, by decide⟩

/-- C1 amended: receiving the second pdf file leaves the compare session at
`waiting_for_file` without running the comparison; the comparison then runs — with no
`done` keyword required — on the user's next text message, whatever its content, after
which the session is back at idle with its files cleared. -/
theorem C1_compare_needs_extra_message (s : Session) (f1 f2 : FileInfo) (body : String)
    (svc : String → Except String String) (deliver : String → Except String Unit)
    (now later : Nat) (r : String)
    (hop : s.selectedOperation = some "compare_pdf")
    (hstep : s.currentStep = "waiting_for_file")
    (hfiles : s.uploadedFiles = [f1])
    (h1 : f1.type = "pdf") (h2 : f2.type = "pdf")
    (hsvc : svc "compare_pdf" = Except.ok r) :
    (handleFileUpload s f2 svc deliver now).2 = false ∧
    (handleFileUpload s f2 svc deliver now).1.currentStep = "waiting_for_file" ∧
    (handleFileUpload s f2 svc deliver now).1.uploadedFiles = [f1, f2] ∧
    (handleStepOperation (handleFileUpload s f2 svc deliver now).1 body svc deliver
        later).2 = true ∧
    (handleStepOperation (handleFileUpload s f2 svc deliver now).1 body svc deliver
        later).1.currentStep = "idle" ∧
    (handleStepOperation (handleFileUpload s f2 svc deliver now).1 body svc deliver
        later).1.uploadedFiles = [] := by
  have hu : handleFileUpload s f2 svc deliver now =
      ({ s with uploadedFiles := [f1, f2], lastActivity := now }, false) := by
    simp [handleFileUpload, checkOperationRequirements, hop, hfiles]
  refine ⟨by rw [hu], by rw [hu]; exact hstep, by rw [hu], ?_, ?_, ?_⟩ <;>
    rw [hu] <;>
    simp [handleStepOperation, hop, hstep, processOperation, dispatch, h1, h2, hsvc,
      resetIdle, jsStartsWith, metaSet]

/-- Witness for C1's amended statement at a fully concrete compare session. -/
theorem C1_compare_needs_extra_message_witness :
    (handleFileUpload compareSession1 exFile2
        (fun _ => Except.ok "r") (fun _ => Except.ok ()) 5).2 = false ∧
    (handleFileUpload compareSession1 exFile2
        (fun _ => Except.ok "r") (fun _ => Except.ok ()) 5).1.currentStep =
      "waiting_for_file" ∧
    (handleFileUpload compareSession1 exFile2
        (fun _ => Except.ok "r") (fun _ => Except.ok ()) 5).1.uploadedFiles =
      [exFile1, exFile2] ∧
    (handleStepOperation (handleFileUpload compareSession1 exFile2
        (fun _ => Except.ok "r") (fun _ => Except.ok ()) 5).1 "ok"
        (fun _ => Except.ok "r") (fun _ => Except.ok ()) 6).2 = true ∧
    (handleStepOperation (handleFileUpload compareSession1 exFile2
        (fun _ => Except.ok "r") (fun _ => Except.ok ()) 5).1 "ok"
        (fun _ => Except.ok "r") (fun _ => Except.ok ()) 6).1.currentStep = "idle" ∧
    (handleStepOperation (handleFileUpload compareSession1 exFile2
        (fun _ => Except.ok "r") (fun _ => Except.ok ()) 5).1 "ok"
        (fun _ => Except.ok "r") (fun _ => Except.ok ()) 6).1.uploadedFiles = [] :=
  C1_compare_needs_extra_message compareSession1 exFile1 exFile2 "ok"
    (fun _ => Except.ok "r") (fun _ => Except.ok ()) 5 6 "r" rfl rfl rfl rfl rfl rfl

/-- One guarded push adds exactly the pushed page to the collected set. -/
theorem mem_pushPage (acc : List Nat) (x p : Nat) :
    p ∈ pushPage acc x ↔ p ∈ acc ∨ p = x := by
  unfold pushPage
  by_cases h : acc.contains x
  · rw [if_pos h]
    have hx : x ∈ acc := List.elem_iff.mp h
    constructor
    · exact Or.inl
    · rintro (hp | rfl)
      · exact hp
      · exact hx
  · rw [if_neg h]
    simp

/-- Pushing a list of candidates with the duplicate check collects exactly the union. -/
theorem mem_foldl_pushPage (xs acc : List Nat) (p : Nat) :
    p ∈ xs.foldl pushPage acc ↔ p ∈ acc ∨ p ∈ xs := by
  induction xs generalizing acc with
  | nil => simp
  | cons x xs ih =>
    rw [List.foldl_cons, ih, mem_pushPage]
    simp only [List.mem_cons]
    tauto

/-- Membership in the shared parser's token fold is membership in some token's pages. -/
theorem mem_foldl_sharedStep (n : Nat) (parts : List (List Char)) (acc : List Nat)
    (p : Nat) :
    p ∈ parts.foldl (sharedStep n) acc ↔
      p ∈ acc ∨ ∃ t ∈ parts, p ∈ sharedTok n t := by
  induction parts generalizing acc with
  | nil => simp
  | cons t ts ih =>
    rw [List.foldl_cons, ih]
    unfold sharedStep
    rw [mem_foldl_pushPage]
    constructor
    · rintro ((hp | hp) | ⟨u, hu, hp⟩)
      · exact Or.inl hp
      · exact Or.inr ⟨t, List.mem_cons_self t ts, hp⟩
      · exact Or.inr ⟨u, List.mem_cons_of_mem t hu, hp⟩
    · rintro (hp | ⟨u, hu, hp⟩)
      · exact Or.inl (Or.inl hp)
      · rcases List.mem_cons.mp hu with rfl | hu
        · exact Or.inl (Or.inr hp)
        · exact Or.inr ⟨u, hu, hp⟩

/-- Membership in `parsePageRange` is membership in the pages of some comma token. -/
theorem mem_parsePageRange (s : String) (n : Nat) (p : Nat) :
    p ∈ parsePageRange s n ↔
      ∃ t ∈ splitOnChar ',' s.toList, p ∈ sharedTok n t := by
  unfold parsePageRange
  rw [List.mem_insertionSort, mem_foldl_sharedStep]
  simp

/-- A key absent from the key column is not found by `lookupAssoc`. -/
theorem lookupAssoc_of_not_mem_keys {β : Type} (l : List (String × β)) (k : String)
    (h : k ∉ l.map Prod.fst) : lookupAssoc l k = none := by
  induction l with
  | nil => rfl
  | cons a t ih =>
    simp only [List.map_cons, List.mem_cons, not_or] at h
    unfold lookupAssoc
    rw [if_neg h.1]
    exact ih h.2

/-- Filtering an association list only removes keys. -/
theorem keys_filter_subset {β : Type} (l : List (String × β)) (pred : String × β → Bool)
    (k : String) (h : k ∈ (l.filter pred).map Prod.fst) : k ∈ l.map Prod.fst := by
  rcases List.mem_map.mp h with ⟨kv, hkv, rfl⟩
  exact List.mem_map_of_mem Prod.fst (List.mem_of_mem_filter hkv)

/-- After the expiry sweep, a session whose `lastActivity` is more than
`SESSION_TIMEOUT` in the past is no longer found. -/
theorem lookupAssoc_cleanup_none (store : List (String × Session)) (userId : String)
    (sess : Session) (now : Nat)
    (hnodup : (store.map Prod.fst).Nodup)
    (hl : lookupAssoc store userId = some sess)
    (hold : SESSION_TIMEOUT < now - sess.lastActivity) :
    lookupAssoc (cleanupExpiredSessions now store) userId = none := by
  induction store with
  | nil => cases hl
  | cons a t ih =>
    simp only [List.map_cons, List.nodup_cons] at hnodup
    unfold lookupAssoc at hl
    unfold cleanupExpiredSessions at ih ⊢
    by_cases hk : userId = a.1
    · rw [if_pos hk] at hl
      have hsess : a.2 = sess := Option.some_injective _ hl
      have hdrop : decide (now - a.2.lastActivity ≤ SESSION_TIMEOUT) = false := by
        rw [hsess]
        simp only [decide_eq_false_iff_not, not_le]
        exact hold
      rw [List.filter_cons, hdrop]
      simp only [Bool.false_eq_true, if_false]
      apply lookupAssoc_of_not_mem_keys
      intro hmem
      exact hnodup.1 (hk ▸ keys_filter_subset t _ userId hmem)
    · rw [if_neg hk] at hl
      rw [List.filter_cons]
      by_cases hp : decide (now - a.2.lastActivity ≤ SESSION_TIMEOUT) = true
      · rw [hp]
        simp only [if_true]
        unfold lookupAssoc
        rw [if_neg hk]
        exact ih hnodup.2 hl
      · simp only [hp, if_false]
        exact ih hnodup.2 hl

/-- C7: a session idle for longer than the 30-minute timeout is absent from the store
after `cleanupExpiredSessions` runs, and a subsequent `getSession` for that user returns
a fresh session with step idle, no files, empty metadata and no selected operation. -/
theorem C7_session_expiry (store : List (String × Session)) (userId : String)
    (sess : Session) (now : Nat)
    (hnodup : (store.map Prod.fst).Nodup)
    (hl : lookupAssoc store userId = some sess)
    (hold : SESSION_TIMEOUT < now - sess.lastActivity) :
    lookupAssoc (cleanupExpiredSessions now store) userId = none ∧
    (getSession (cleanupExpiredSessions now store) userId now).1 =
      freshSession userId now ∧
    (getSession (cleanupExpiredSessions now store) userId now).1.currentStep = "idle" ∧
    (getSession (cleanupExpiredSessions now store) userId now).1.uploadedFiles = [] ∧
    (getSession (cleanupExpiredSessions now store) userId now).1.metadata = [] ∧
    (getSession (cleanupExpiredSessions now store) userId now).1.selectedOperation
      = none := by
  have hnone := lookupAssoc_cleanup_none store userId sess now hnodup hl hold
  have hget : (getSession (cleanupExpiredSessions now store) userId now).1 =
      freshSession userId now := by
    unfold getSession
    rw [hnone]
  exact ⟨hnone, hget, by rw [hget]; rfl, by rw [hget]; rfl, by rw [hget]; rfl,
    by rw [hget]; rfl⟩

/-- A session whose last activity is stale relative to the sweep below. -/
def staleSession : Session :=
  { userId := "u1", uploadedFiles := [exFile1], currentStep := "waiting_for_file",
    selectedOperation := some "merge_pdf", metadata := [("k", "v")], lastActivity := 0 }

/-- Witness for C7: a single stale session is evicted and recreated fresh. -/
theorem C7_session_expiry_witness :
    lookupAssoc (cleanupExpiredSessions 1800001 [("u1", staleSession)]) "u1" = none ∧
    (getSession (cleanupExpiredSessions 1800001 [("u1", staleSession)]) "u1" 1800001).1 =
      freshSession "u1" 1800001 ∧
    (getSession (cleanupExpiredSessions 1800001 [("u1", staleSession)]) "u1"
        1800001).1.currentStep = "idle" ∧
    (getSession (cleanupExpiredSessions 1800001 [("u1", staleSession)]) "u1"
        1800001).1.uploadedFiles = [] ∧
    (getSession (cleanupExpiredSessions 1800001 [("u1", staleSession)]) "u1"
        1800001).1.metadata = [] ∧
    (getSession (cleanupExpiredSessions 1800001 [("u1", staleSession)]) "u1"
        1800001).1.selectedOperation = none :=
  C7_session_expiry [("u1", staleSession)] "u1" staleSession 1800001
    (by simp) rfl (by decide)

/-- C3 counterexample: on the empty-parse selector `99` over 10 pages, `removePages`
does not fail — it succeeds and keeps every page. -/
theorem C3_removePages_empty_parse_cex :
    parsePageRange "99" 10 = [] ∧
    removePages "99" 10 = Except.ok [0, 1, 2, 3, 4, 5, 6, 7, 8, 9] :=
  ⟨by decide, rfl⟩

/-- C3 amended: when the parsed page set is empty, `splitPDF` and `extractPages` fail
with the invalid-page-range error, but `removePages` only fails when the complement is
empty: on a non-empty document it succeeds, keeping every page. -/
theorem C3_empty_parse_outcomes (s : String) (n : Nat)
    (h : parsePageRange s n = []) :
    splitPDF s n = Except.error "Invalid page range" ∧
    extractPages s n = Except.error "Invalid page range" ∧
    (1 ≤ n → removePages s n = Except.ok (List.range n)) := by
  refine ⟨by simp [splitPDF, h], by simp [extractPages, splitPDF, h], ?_⟩
  intro hn
  unfold removePages
  rw [h]
  dsimp only
  have hkeep : ((List.range' 1 n).filter
      (fun i => !(([] : List Nat).contains i))).map (fun i => i - 1) = List.range n := by
    rw [show (fun i : Nat => !(([] : List Nat).contains i)) = fun _ => true by
      funext i; rfl]
    rw [List.filter_true, List.range'_eq_map_range, List.map_map]
    rw [show ((fun i : Nat => i - 1) ∘ (fun x : Nat => 1 + x)) = id by
      funext x; simp [Function.comp]]
    rw [List.map_id]
  rw [hkeep]
  have : (List.range n).length ≠ 0 := by
    rw [List.length_range]
    omega
  simp only [this, if_false]

/-- Witness for C3's amended statement at the selector `99` over 10 pages. -/
theorem C3_empty_parse_outcomes_witness :
    splitPDF "99" 10 = Except.error "Invalid page range" ∧
    extractPages "99" 10 = Except.error "Invalid page range" ∧
    removePages "99" 10 = Except.ok (List.range 10) :=
  ⟨(C3_empty_parse_outcomes "99" 10 (by decide)).1,
   (C3_empty_parse_outcomes "99" 10 (by decide)).2.1,
   (C3_empty_parse_outcomes "99" 10 (by decide)).2.2 (by decide)⟩

/-- C5: `removePages` keeps (0-based) exactly the complement of the parsed page set
against `1..totalPages`, and fails precisely when that complement is empty, i.e. when
the selector covers every page. -/
theorem C5_removePages_complement (s : String) (n : Nat) :
    ((removePages s n = Except.error "Cannot remove all pages") ↔
      Finset.Icc 1 n ⊆ (parsePageRange s n).toFinset) ∧
    (∀ l, removePages s n = Except.ok l →
      ∀ p, p ∈ l ↔ (p + 1 ∈ Finset.Icc 1 n ∧ p + 1 ∉ parsePageRange s n)) := by
  have hmem : ∀ p, p ∈ ((List.range' 1 n).filter
      (fun i => !((parsePageRange s n).contains i))).map (fun i => i - 1) ↔
      (p + 1 ∈ Finset.Icc 1 n ∧ p + 1 ∉ parsePageRange s n) := by
    intro p
    simp only [List.mem_map, List.mem_filter, List.mem_range'_1, Finset.mem_Icc]
    simp only [Bool.not_eq_true', ← Bool.not_eq_true, List.elem_iff]
    constructor
    · rintro ⟨i, ⟨⟨h1, h2⟩, hni⟩, rfl⟩
      have hi : i - 1 + 1 = i := by omega
      rw [hi]
      exact ⟨⟨by omega, by omega⟩, hni⟩
    · rintro ⟨⟨h1, h2⟩, hni⟩
      exact ⟨p + 1, ⟨⟨by omega, by omega⟩, hni⟩, by omega⟩
  constructor
  · unfold removePages
    dsimp only
    by_cases hz : (((List.range' 1 n).filter
        (fun i => !((parsePageRange s n).contains i))).map (fun i => i - 1)).length = 0
    · simp only [hz, if_true, true_iff]
      intro q hq
      by_contra hnq
      rw [List.length_eq_zero] at hz
      have h1q : 1 ≤ q ∧ q ≤ n := by
        simpa [Finset.mem_Icc] using hq
      have : q - 1 ∈ (([] : List Nat)) := by
        rw [← hz]
        apply (hmem (q - 1)).mpr
        have : q - 1 + 1 = q := by omega
        rw [this]
        refine ⟨hq, ?_⟩
        simpa [List.mem_toFinset] using hnq
      cases this
    · simp only [hz, if_false]
      constructor
      · intro h
        cases h
      · intro hsub
        exfalso
        apply hz
        rw [List.length_eq_zero, List.eq_nil_iff_forall_not_mem]
        intro p hp
        rcases (hmem p).mp hp with ⟨hicc, hnot⟩
        exact hnot (by simpa [List.mem_toFinset] using hsub hicc)
  · intro l hl p
    unfold removePages at hl
    dsimp only at hl
    by_cases hz : (((List.range' 1 n).filter
        (fun i => !((parsePageRange s n).contains i))).map (fun i => i - 1)).length = 0
    · rw [if_pos hz] at hl
      cases hl
    · rw [if_neg hz] at hl
      rw [← Except.ok.inj hl]
      exact hmem p

/-- Witness for C5 on selector `1` over a 2-page document: page 2 (0-based 1) is kept. -/
theorem C5_removePages_complement_witness :
    1 ∈ [1] ↔ (1 + 1 ∈ Finset.Icc 1 2 ∧ 1 + 1 ∉ parsePageRange "1" 2) :=
  (C5_removePages_complement "1" 2).2 [1] rfl 1

/-- Splitting never produces the empty list of fields. -/
theorem splitOnChar_ne_nil (sep : Char) (cs : List Char) : splitOnChar sep cs ≠ [] := by
  cases cs with
  | nil => simp [splitOnChar]
  | cons c cs =>
    unfold splitOnChar
    cases h : splitOnChar sep cs with
    | nil => simp
    | cons t ts => by_cases hc : c = sep <;> simp [hc]

/-- A comma token has a numeric start when it is not a range, or when the piece before
its first dash parses as a number; this is exactly the situation in which `rotatePDF`'s
inline loop has a well-defined starting index. -/
def hasNumericStart (part : List Char) : Bool :=
  let trimmed := trimJS part
  if trimmed.contains '-' then
    (parseIntJS (trimJS (((splitOnChar '-' trimmed).get? 0).getD []))).isSome
  else true

/-- Membership in the rotate parser's token fold is membership in some token's pages. -/
theorem mem_foldl_rotateStep (n : Nat) (parts : List (List Char)) (acc : List Nat)
    (q : Nat) :
    q ∈ parts.foldl (rotateStep n) acc ↔
      q ∈ acc ∨ ∃ t ∈ parts, q ∈ rotateTok n t := by
  induction parts generalizing acc with
  | nil => simp
  | cons t ts ih =>
    rw [List.foldl_cons, ih]
    unfold rotateStep
    simp only [List.mem_append, List.mem_cons]
    constructor
    · rintro ((hq | hq) | ⟨u, hu, hq⟩)
      · exact Or.inl hq
      · exact Or.inr ⟨t, Or.inl rfl, hq⟩
      · exact Or.inr ⟨u, Or.inr hu, hq⟩
    · rintro (hq | ⟨u, hu | hu, hq⟩)
      · exact Or.inl (Or.inl hq)
      · exact Or.inl (Or.inr (hu ▸ hq))
      · exact Or.inr ⟨u, hu, hq⟩

/-- On a token with a numeric start, the pages selected by `rotatePDF`'s inline parser
(shifted to 1-based) are exactly the pages of the shared parser's token. -/
theorem tok_agree (n : Nat) (part : List Char) (hnum : hasNumericStart part = true)
    (p : Nat) :
    (∃ q ∈ rotateTok n part, q + 1 = p) ↔ p ∈ sharedTok n part := by
  unfold hasNumericStart at hnum
  unfold rotateTok sharedTok
  dsimp only at hnum ⊢
  by_cases hd : (trimJS part).contains '-'
  · rw [if_pos hd] at hnum
    rw [if_pos hd, if_pos hd]
    obtain ⟨p0, rest, hsplit⟩ :=
      List.exists_cons_of_ne_nil (splitOnChar_ne_nil '-' (trimJS part))
    rw [hsplit] at hnum ⊢
    obtain ⟨st, hst⟩ := Option.isSome_iff_exists.mp (by simpa using hnum)
    simp only [List.map_cons, List.get?_cons_zero, List.get?_cons_succ,
      Option.getD_some] at hst ⊢
    rw [hst]
    have hE : (if ((rest.map trimJS).get? 0).getD [] = [] then n
        else jsOrD n (parseIntJS (((rest.map trimJS).get? 0).getD []))) =
        jsOrD n (((rest.map fun q => parseIntJS (trimJS q)).get? 0).getD none) := by
      cases rest with
      | nil => simp [jsOrD]
      | cons r0 rs =>
        simp only [List.map_cons, List.get?_cons_zero, Option.getD_some]
        by_cases hr : trimJS r0 = []
        · rw [if_pos hr, hr]
          simp [parseIntJS, jsOrD]
        · rw [if_neg hr]
    rw [hE]
    cases st with
    | zero =>
      simp only [jsOrD, List.mem_filter, List.mem_range'_1, decide_eq_true_eq]
      constructor
      · rintro ⟨q, hq, rfl⟩
        exact ⟨⟨by omega, by omega⟩, by omega⟩
      · rintro ⟨⟨h1, h2⟩, _⟩
        exact ⟨p - 1, ⟨by omega, by omega⟩, by omega⟩
    | succ k =>
      simp only [jsOrD, List.mem_filter, List.mem_range'_1, decide_eq_true_eq]
      constructor
      · rintro ⟨q, hq, rfl⟩
        exact ⟨⟨by omega, by omega⟩, by omega⟩
      · rintro ⟨⟨h1, h2⟩, _⟩
        exact ⟨p - 1, ⟨by omega, by omega⟩, by omega⟩
  · rw [if_neg hd, if_neg hd]
    cases hpi : parseIntJS (trimJS part) with
    | none => simp
    | some k =>
      dsimp only
      by_cases hk : 1 ≤ k ∧ k ≤ n
      · rw [if_pos hk, if_pos hk]
        simp only [List.mem_singleton]
        constructor
        · rintro ⟨q, rfl, rfl⟩
          omega
        · rintro rfl
          exact ⟨p - 1, rfl, by omega⟩
      · rw [if_neg hk, if_neg hk]
        simp

/-- C2 counterexample: on the range token `-3` with an omitted start, the shared parser
selects pages 1-3 (start defaults to 1) while `rotatePDF`'s inline parser selects
nothing (its loop starts at `NaN`), so page 1 separates the two. -/
theorem C2_rotate_parser_disagrees_cex :
    1 ∈ parsePageRange "-3" 10 ∧
    (pagesToRotate "-3" 10).map (fun q => q + 1) = [] ∧
    1 ∉ (pagesToRotate "-3" 10).map (fun q => q + 1) := by
  refine ⟨by decide, by decide, by decide⟩

/-- C2 amended: for every selector other than the literal `all` (which only `rotatePDF`
short-circuits) in which every range token has a numeric start, `rotatePDF`'s inline
parser selects exactly the pages of the shared `parsePageRange` (modulo its 0-based
indexing); in particular the two agree on trailing-dash tokens such as `5-`.  When a
range token's start is omitted or non-numeric (for example `-3`), the shared parser
defaults the start to 1 while the inline parser contributes no pages for that token. -/
theorem C2_rotate_vs_shared_pages (s : String) (n : Nat)
    (hall : s ≠ "all")
    (hnum : ∀ part ∈ splitOnChar ',' s.toList, hasNumericStart part = true)
    (p : Nat) :
    p ∈ (pagesToRotate s n).map (fun q => q + 1) ↔ p ∈ parsePageRange s n := by
  rw [mem_parsePageRange]
  unfold pagesToRotate
  rw [if_neg hall]
  simp only [List.mem_map]
  constructor
  · rintro ⟨q, hq, rfl⟩
    rw [mem_foldl_rotateStep] at hq
    rcases hq with hq | ⟨t, ht, hq⟩
    · cases hq
    · exact ⟨t, ht, (tok_agree n t (hnum t ht) (q + 1)).mp ⟨q, hq, rfl⟩⟩
  · rintro ⟨t, ht, hp⟩
    rcases (tok_agree n t (hnum t ht) p).mpr hp with ⟨q, hq, rfl⟩
    refine ⟨q, ?_, rfl⟩
    rw [mem_foldl_rotateStep]
    exact Or.inr ⟨t, ht, hq⟩

/-- Witness for C2's amended statement on the selector `1-3,5` (all tokens with numeric
start) over 10 pages, at page 2. -/
theorem C2_rotate_vs_shared_pages_witness :
    2 ∈ (pagesToRotate "1-3,5" 10).map (fun q => q + 1) ↔
      2 ∈ parsePageRange "1-3,5" 10 :=
  C2_rotate_vs_shared_pages "1-3,5" 10 (by decide) (by decide) 2

end EasyDocs
